import Mathlib

/-!
Verification of the update core of the naim_update_app Electron application.

This file gives a shallow embedding of the parts of the source that the
properties below talk about:

- NPConfig.ts      (Command Gateway around the npconfig utility)
- ARMMfg.ts        (Debug Session Manager over the ARM serial debug port)
- UpdateRepository.ts (Repository Sync Client and its DownloadBatch record)
- UpdaterStateMachine.ts (Update Orchestrator finite state machine)
- Product.ts       (npconfig output to ProductDetails decoding)

Conventions of the embedding:

- JavaScript strings are modelled as lists of characters (JSStr), with
  structurally recursive versions of trim and of split on a one character
  separator, so that every definition evaluates inside the kernel.
- Callbacks are identified by opaque numeric tokens; invoking a callback is
  recorded as an explicit effect value in a returned effect list, so that
  what the TypeScript does through side effects becomes data the theorems
  can talk about.  Logging calls are not modelled: they touch no state that
  any property mentions.
- A JavaScript exception escaping a function is modelled by Option: none is
  the thrown TypeError, some x a normal return.
- Asynchronous completion handlers are modelled as explicit step functions
  on the component state, applied in the order in which the runtime would
  deliver the events.
-/

namespace NaimUpdate

/-- JavaScript strings, modelled as their character lists. -/
abbrev JSStr : Type := List Char

/-- JavaScript String.prototype.split with a one character separator:
an empty string yields one empty fragment, and every occurrence of the
separator starts a new fragment. -/
def jsSplit (sep : Char) : JSStr → List JSStr
  | [] => [[]]
  | c :: rest =>
      let r := jsSplit sep rest
      if c = sep then [] :: r
      else
        match r with
        | f :: tail => (c :: f) :: tail
        | [] => [[c]]

/-- JavaScript String.prototype.trim: strip whitespace from both ends. -/
def jsTrim (s : JSStr) : JSStr :=
  ((s.dropWhile Char.isWhitespace).reverse.dropWhile Char.isWhitespace).reverse

/-- JavaScript Array.prototype.splice with a start index of -1 and a delete
count of 0 inserts the new items immediately before the last element of the
array (at index max(length - 1, 0)).  This is the exact operation performed
by NPConfig.onStdout on its accumulated line buffer. -/
def spliceBeforeLast {α : Type} (l : List α) (items : List α) : List α :=
  l.take (l.length - 1) ++ items ++ l.drop (l.length - 1)

/-! ## Product.ts -/

namespace Product

/-- ProductDetails from Product.ts: every field is optional and starts unset. -/
structure ProductDetails where
  modelName : Option JSStr := none
  modelVariant : Option JSStr := none
  serialNumber : Option JSStr := none
  analogBoardVersion : Option JSStr := none
  digitalBoardVersion : Option JSStr := none
  frontBoardVersion : Option JSStr := none
  uiBoardVersion : Option JSStr := none
  mainsVoltage : Option JSStr := none
  displayType : Option JSStr := none
  wifiRegion : Option JSStr := none
  googleToken : Option JSStr := none
  dateOfBirth : Option JSStr := none
  dateOfLastService : Option JSStr := none
  numberOfServices : Option JSStr := none
deriving DecidableEq

/-- The productPropertyLookup table of Product.ts, mapping the labels found
in npconfig output lines to the ProductDetails property they populate. -/
def productPropertyLookup : List (JSStr × JSStr) :=
  [("Product Type".toList, "modelName".toList),
   ("Product Variant".toList, "modelVariant".toList),
   ("Serial Number".toList, "serialNumber".toList),
   ("Analogue board version".toList, "analogBoardVersion".toList),
   ("Digital board version".toList, "digitalBoardVersion".toList),
   ("Front board version".toList, "frontBoardVersion".toList),
   ("UI board version".toList, "uiBoardVersion".toList),
   ("Mains Voltage".toList, "mainsVoltage".toList),
   ("Display Type".toList, "displayType".toList),
   ("Wifi Region".toList, "wifiRegion".toList),
   ("Google Token".toList, "googleToken".toList),
   ("Date of Birth".toList, "dateOfBirth".toList),
   ("Date of Last Service".toList, "dateOfLastService".toList),
   ("Number Of Services".toList, "numberOfServices".toList)]

/-- Dynamic property write product[property] = value for the property names
occurring in productPropertyLookup. -/
def setProperty (p : ProductDetails) (property : JSStr) (value : JSStr) :
    ProductDetails :=
  if property = "modelName".toList then { p with modelName := some value }
  else if property = "modelVariant".toList then
    { p with modelVariant := some value }
  else if property = "serialNumber".toList then
    { p with serialNumber := some value }
  else if property = "analogBoardVersion".toList then
    { p with analogBoardVersion := some value }
  else if property = "digitalBoardVersion".toList then
    { p with digitalBoardVersion := some value }
  else if property = "frontBoardVersion".toList then
    { p with frontBoardVersion := some value }
  else if property = "uiBoardVersion".toList then
    { p with uiBoardVersion := some value }
  else if property = "mainsVoltage".toList then
    { p with mainsVoltage := some value }
  else if property = "displayType".toList then
    { p with displayType := some value }
  else if property = "wifiRegion".toList then
    { p with wifiRegion := some value }
  else if property = "googleToken".toList then
    { p with googleToken := some value }
  else if property = "dateOfBirth".toList then
    { p with dateOfBirth := some value }
  else if property = "dateOfLastService".toList then
    { p with dateOfLastService := some value }
  else if property = "numberOfServices".toList then
    { p with numberOfServices := some value }
  else p

/-- One iteration of the data.forEach loop in npconfigToProductDetails.
The destructuring const [key, value] = line.split(separator) binds key to
the first fragment (always present) and value to the second fragment, which
is undefined when the line holds no separator.  The original then evaluates
value.trim() whenever the trimmed key is in the lookup table; when value is
undefined that expression throws a TypeError, modelled here as none. -/
def productLine (product : ProductDetails) (line : JSStr) :
    Option ProductDetails :=
  let parts : List JSStr := jsSplit ':' line
  let key : JSStr := parts.headD []
  let value? : Option JSStr := parts[1]?
  match productPropertyLookup.lookup (jsTrim key) with
  | some property =>
      match value? with
      | some value => some (setProperty product property (jsTrim value))
      | none => none
  | none => some product

/-- npconfigToProductDetails from Product.ts.  Returns none when the
original function throws before completing the loop. -/
def npconfigToProductDetails (data : List JSStr) : Option ProductDetails :=
  data.foldlM productLine {}

end Product

/-! ## NPConfig.ts -/

namespace NPConfig

/-- A queued buffered command: argument list and completion handler
(QueuedCommand in NPConfig.ts, callbacks named by numeric tokens). -/
structure QueuedCommand where
  parameters : List JSStr
  handler : Nat
deriving DecidableEq

/-- The mutable fields of the NPConfig class that the modelled operations
read or write. -/
structure State where
  bufferedCallback : Option Nat := none
  streamingCallback : Option Nat := none
  bufferedData : List JSStr := []
  activeDevice : Option JSStr := none
  commandQueue : List QueuedCommand := []
deriving DecidableEq

/-- Observable effects of the Command Gateway: spawning the utility and
invoking a client callback. -/
inductive Effect where
  | spawn (args : List JSStr) (timeoutMs : Nat)
  | deliverStreaming (cb : Nat) (data : Option JSStr) (status : Option Int)
  | deliverBuffered (cb : Nat) (data : List JSStr) (status : Int)
deriving DecidableEq

/-- maxCommandQueueLength in NPConfig.ts. -/
def maxCommandQueueLength : Nat := 2

/-- defaultCommandTimeoutMs in NPConfig.ts. -/
def defaultCommandTimeoutMs : Nat := 20000

/-- setDefaultDevice: only assigns the active device when none is set yet. -/
def setDefaultDevice (s : State) (device : JSStr) : State :=
  if s.activeDevice = none then { s with activeDevice := some device } else s

/-- selectDevice: unconditionally assigns the active device. -/
def selectDevice (s : State) (device : JSStr) : State :=
  { s with activeDevice := some device }

/-- run: spawns the utility; always reports acceptance. -/
def run (args : List JSStr) (commandTimeout : Nat) : Bool × List Effect :=
  (true, [Effect.spawn args commandTimeout])

/-- runBuffered: starts immediately when no command is in flight, otherwise
queues while the queue is below maxCommandQueueLength, otherwise rejects. -/
def runBuffered (s : State) (args : List JSStr) (callback : Nat)
    (commandTimeout : Nat) : State × Bool × List Effect :=
  if s.bufferedCallback = none ∧ s.streamingCallback = none then
    let r := run args commandTimeout
    ({ s with bufferedCallback := some callback, bufferedData := [] },
      r.1, r.2)
  else if s.commandQueue.length < maxCommandQueueLength then
    ({ s with
        commandQueue := s.commandQueue ++ [⟨args, callback⟩] }, true, [])
  else
    (s, false, [])

/-- runStreaming: starts immediately when no command is in flight, otherwise
rejects; streamed commands are never queued. -/
def runStreaming (s : State) (args : List JSStr) (callback : Nat)
    (commandTimeout : Nat) : State × Bool × List Effect :=
  if s.bufferedCallback = none ∧ s.streamingCallback = none then
    let r := run args commandTimeout
    ({ s with streamingCallback := some callback }, r.1, r.2)
  else
    (s, false, [])

/-- onStdout: streaming mode forwards the trimmed chunk with a null status;
buffered mode trims the chunk, splits it on newlines and splices the
fragments into the accumulated buffer with splice(-1, 0, ...fragments). -/
def onStdout (s : State) (data : JSStr) : State × List Effect :=
  match s.streamingCallback with
  | some cb => (s, [Effect.deliverStreaming cb (some (jsTrim data)) none])
  | none =>
      match s.bufferedCallback with
      | some _ =>
          ({ s with
              bufferedData :=
                spliceBeforeLast s.bufferedData (jsSplit '\n' (jsTrim data)) },
            [])
      | none => (s, [])

/-- Coercion of the process exit code applied by onClose: a null exit code
becomes the generic failure status 1. -/
def closeResult : Option Int → Int
  | none => 1
  | some code => code

/-- onClose: delivers the completion to whichever callback is registered and
clears it, then dequeues and starts the head of the command queue. -/
def onClose (s : State) (code : Option Int) : State × List Effect :=
  let result : Int := closeResult code
  let step1 : State × List Effect :=
    match s.streamingCallback with
    | some cb =>
        ({ s with streamingCallback := none },
          [Effect.deliverStreaming cb (some []) (some result)])
    | none =>
        match s.bufferedCallback with
        | some cb =>
            ({ s with bufferedCallback := none },
              [Effect.deliverBuffered cb s.bufferedData result])
        | none => (s, [])
  match step1.1.commandQueue with
  | [] => step1
  | command :: rest =>
      let dequeued : State := { step1.1 with commandQueue := rest }
      let started :=
        runBuffered dequeued command.parameters command.handler
          defaultCommandTimeoutMs
      (started.1, step1.2 ++ started.2.2)

/-- Handlers that become the active buffered command over a number of
process completions, in order: after each onClose, record which callback is
then registered as the buffered one. -/
def drainOrder : Nat → State → List Nat
  | 0, _ => []
  | Nat.succ n, s =>
      let s' := (onClose s none).1
      (match s'.bufferedCallback with
       | some cb => [cb]
       | none => []) ++ drainOrder n s'

end NPConfig

/-! ## ARMMfg.ts -/

namespace ARMMfg

/-- The mutable fields of the ARMMfg class: configured device, whether the
serial port handle is held, whether a client callback is pending, and the
accumulated response data. -/
structure State where
  device : Option JSStr := none
  portOpen : Bool := false
  hasCallback : Bool := false
  responseData : JSStr := []
deriving DecidableEq

/-- Observable effects of the Debug Session Manager. -/
inductive Effect where
  | openPort (path : JSStr) (baudRate : Nat)
  | write (data : JSStr)
  | deliver (lines : List JSStr)
  | closePort
deriving DecidableEq

/-- debugPortBaudRate in ARMMfg.ts. -/
def debugPortBaudRate : Nat := 115000

/-- onData: the chunk is trimmed and appended to the accumulated response
data, the accumulation is split into lines, and when the last line is the
debug prompt sentinel the lines are delivered, the port is closed and
cleared and the callback is cleared. -/
def onData (s : State) (data : JSStr) : State × List Effect :=
  let value : JSStr := jsTrim data
  let accumulated : JSStr := s.responseData ++ value
  let lines : List JSStr := jsSplit '\n' accumulated
  if 0 < lines.length then
    if lines.getLast? = some "-".toList then
      ({ s with
          responseData := accumulated
          portOpen := false
          hasCallback := false },
        (if s.hasCallback then [Effect.deliver lines] else []) ++
          (if s.portOpen then [Effect.closePort] else []))
    else
      ({ s with responseData := accumulated }, [])
  else
    ({ s with responseData := accumulated }, [])

/-- setDevice: configure the serial device, no session side effects. -/
def setDevice (s : State) (device : JSStr) : State :=
  { s with device := some device }

/-- runCommand along its successful synchronous path: rejected when a port
handle is held or no device is configured; otherwise the port is opened,
the response accumulator is cleared, the callback is saved, and the command
is written as mfg command newline. -/
def runCommand (s : State) (command : JSStr) : State × Bool × List Effect :=
  if s.portOpen then (s, false, [])
  else
    match s.device with
    | none => (s, false, [])
    | some dev =>
        ({ s with portOpen := true, responseData := [], hasCallback := true },
          true,
          [Effect.openPort dev debugPortBaudRate,
           Effect.write ("mfg ".toList ++ command ++ "\n".toList)])

/-- Deliver a sequence of serial data chunks to onData, accumulating the
emitted effects in arrival order. -/
def processChunks (s : State) : List JSStr → State × List Effect
  | [] => (s, [])
  | c :: rest =>
      let r1 := onData s c
      let r2 := processChunks r1.1 rest
      (r2.1, r1.2 ++ r2.2)

end ARMMfg

/-! ## UpdateRepository.ts -/

namespace UpdateRepository

/-- DownloadBatch from UpdateRepository.ts: completions so far, size of the
batch, and how many completions were successful. -/
structure DownloadBatch where
  completed : Nat
  count : Nat
  success : Nat
deriving DecidableEq

/-- The batch bookkeeping performed at the end of doDownloadFile when one
download reports: completed is incremented, and success is incremented when
the download succeeded; the callback then observes this snapshot. -/
def downloadCompletion (batch : DownloadBatch) (res : Bool) : DownloadBatch :=
  { batch with
      completed := batch.completed + 1,
      success := batch.success + (if res then 1 else 0) }

/-- The batch record created by downloadFiles for a batch of n downloads. -/
def newBatch (n : Nat) : DownloadBatch :=
  { completed := 0, count := n, success := 0 }

/-- The shared batch record as seen after a given list of per-file download
outcomes has been applied to it, in delivery order. -/
def batchAfter (n : Nat) (results : List Bool) : DownloadBatch :=
  results.foldl downloadCompletion (newBatch n)

end UpdateRepository

/-! ## UpdaterStateMachine.ts -/

namespace UpdaterStateMachine

/-- Lifecycle events implicit to the state machine. -/
inductive Lifecycle where
  | enter
  | exit
  | timeout
deriving DecidableEq

/-- Control events from the Main process business logic. -/
inductive Controls where
  | updateCheckSuccess
  | updateCheckFailure
  | discoverySuccess
  | discoveryFailure
  | reprogrammingSuccess
  | reprogrammingFailure
deriving DecidableEq

/-- Observer commands arriving over IPC (IPC.Commands). -/
inductive Commands where
  | continue'
  | retry
  | restart
  | select
  | install
  | connect
deriving DecidableEq

/-- Workflow states (IPC.States). -/
inductive States where
  | welcome
  | checkingForUpdate
  | checkFailedOffline
  | checkFailedCached
  | connectPrompt
  | detecting
  | detectionFailed
  | detectingManual
  | detectedCurrent
  | detectedAvailable
  | updating
  | updateComplete
  | updateFailed
deriving DecidableEq

/-- The AllEvents union: lifecycle, control, or observer command events. -/
inductive AllEvents where
  | lifecycle (l : Lifecycle)
  | controls (c : Controls)
  | commands (c : Commands)
deriving DecidableEq

/-- Observable effects of the orchestrator: the state change notification
to the Renderer, the optional state change observer hook, adapter calls made
by state handlers, and configuration messages. -/
inductive Effect where
  | sendStateChange (st : States)
  | stateChangeHook (st : States)
  | getPackageIndexFiles (pfx : JSStr)
  | discover
  | devices
  | reprogApp
  | startTimer (timeoutMs : Nat)
  | sendProductDetails (details : Product.ProductDetails)
  | runMfgCommand (command : JSStr)
  | downloadFiles (keys : List JSStr) (path : JSStr)
deriving DecidableEq

/-- The orchestrator state the modelled handlers read or write: the current
workflow state and the most recently received product details. -/
structure FsmState where
  currentState : Option States := none
  productDetails : Option Product.ProductDetails := none
deriving DecidableEq

/-- A request to the state machine core: inject an event into the current
state handler, or transition to a target state. -/
inductive FsmReq where
  | inject (ev : AllEvents)
  | enter (target : States)
deriving DecidableEq

/-- The dispatch table of state handlers: handleEvent st s ev is the body
of the handler registered for state st in the StateTable, given the
enterState operation (with the remaining call depth) as the enter
parameter.  Each arm mirrors the switch of the handler method of the same
state in UpdaterStateMachine.ts; unhandled events fall through to a no-op.
In stateChecking the UpdateCheckFailure arm takes the constant-true branch
of the original if, so it always enters CheckFailedCached. -/
def handleEvent (enter : FsmState -> States -> FsmState × List Effect)
    (st : States) (s : FsmState) (ev : AllEvents) : FsmState × List Effect :=
  match st, ev with
  | States.welcome, AllEvents.commands Commands.continue' =>
      enter s States.checkingForUpdate
  | States.welcome, _ => (s, [])
  | States.checkingForUpdate, AllEvents.lifecycle Lifecycle.enter =>
      (s, [Effect.getPackageIndexFiles "NonStreamers".toList])
  | States.checkingForUpdate, AllEvents.controls Controls.updateCheckSuccess =>
      enter s States.connectPrompt
  | States.checkingForUpdate, AllEvents.controls Controls.updateCheckFailure =>
      enter s States.checkFailedCached
  | States.checkingForUpdate, _ => (s, [])
  | States.checkFailedOffline, AllEvents.commands Commands.retry =>
      enter s States.checkingForUpdate
  | States.checkFailedOffline, _ => (s, [])
  | States.checkFailedCached, AllEvents.commands Commands.retry =>
      enter s States.checkingForUpdate
  | States.checkFailedCached, AllEvents.commands Commands.continue' =>
      enter s States.connectPrompt
  | States.checkFailedCached, _ => (s, [])
  | States.connectPrompt, AllEvents.commands Commands.retry =>
      enter s States.checkingForUpdate
  | States.connectPrompt, AllEvents.commands Commands.continue' =>
      enter s States.detecting
  | States.connectPrompt, _ => (s, [])
  | States.detecting, AllEvents.lifecycle Lifecycle.enter =>
      (s, [Effect.discover])
  | States.detecting, AllEvents.controls Controls.discoverySuccess =>
      enter s States.detectedAvailable
  | States.detecting, AllEvents.controls Controls.discoveryFailure =>
      enter s States.detectionFailed
  | States.detecting, _ => (s, [])
  | States.detectionFailed, AllEvents.commands Commands.retry =>
      enter s States.detecting
  | States.detectionFailed, AllEvents.commands Commands.continue' =>
      enter s States.detectingManual
  | States.detectionFailed, _ => (s, [])
  | States.detectingManual, AllEvents.lifecycle Lifecycle.enter =>
      (s, [Effect.devices])
  | States.detectingManual, AllEvents.commands Commands.connect =>
      enter s States.detecting
  | States.detectingManual, _ => (s, [])
  | States.detectedAvailable, AllEvents.lifecycle Lifecycle.enter =>
      (s, [Effect.startTimer 500])
  | States.detectedAvailable, AllEvents.lifecycle Lifecycle.timeout =>
      (match s.productDetails with
       | some details =>
           (s, [Effect.sendProductDetails details,
                Effect.runMfgCommand "version host".toList])
       | none => (s, []))
  | States.detectedAvailable, AllEvents.commands Commands.install =>
      enter s States.updating
  | States.detectedAvailable, _ => (s, [])
  | States.detectedCurrent, AllEvents.commands Commands.restart =>
      enter s States.welcome
  | States.detectedCurrent, _ => (s, [])
  | States.updating, AllEvents.lifecycle Lifecycle.enter =>
      (s, [Effect.reprogApp])
  | States.updating, AllEvents.controls Controls.reprogrammingSuccess =>
      enter s States.updateComplete
  | States.updating, AllEvents.controls Controls.reprogrammingFailure =>
      enter s States.updateFailed
  | States.updating, _ => (s, [])
  | States.updateComplete, AllEvents.commands Commands.restart =>
      enter s States.welcome
  | States.updateComplete, _ => (s, [])
  | States.updateFailed, AllEvents.commands Commands.restart =>
      enter s States.welcome
  | States.updateFailed, _ => (s, [])

/-- The state machine core: an inject request dispatches the event through
handleEvent to the handler of the current state, and an enter request
performs the transition procedure of UpdaterStateMachine.enterState: no-op
when already in the target state, otherwise notify the Renderer, inject
Exit into the current handler, move to the target, inject Enter into its
handler, and invoke the state change hook.  A fuel argument bounds the
nesting of handler calls; every property below is stated with enough fuel
that the cut-off is never reached. -/
def fsmStep : Nat -> FsmState -> FsmReq -> FsmState × List Effect
  | 0, s, _ => (s, [])
  | Nat.succ fuel, s, FsmReq.enter newState =>
      if s.currentState = some newState then (s, [])
      else
        let exitStep : FsmState × List Effect :=
          match s.currentState with
          | none => (s, [])
          | some _ =>
              fsmStep fuel s (FsmReq.inject (AllEvents.lifecycle Lifecycle.exit))
        let moved : FsmState := { exitStep.1 with currentState := some newState }
        let enterStep :=
          fsmStep fuel moved (FsmReq.inject (AllEvents.lifecycle Lifecycle.enter))
        (enterStep.1,
          Effect.sendStateChange newState ::
            (exitStep.2 ++ enterStep.2 ++ [Effect.stateChangeHook newState]))
  | Nat.succ fuel, s, FsmReq.inject ev =>
      match s.currentState with
      | none => (s, [])
      | some st =>
          handleEvent (fun s2 target => fsmStep fuel s2 (FsmReq.enter target))
            st s ev

/-- injectEvent of UpdaterStateMachine.ts. -/
def injectEvent (fuel : Nat) (s : FsmState) (ev : AllEvents) :
    FsmState × List Effect :=
  fsmStep fuel s (FsmReq.inject ev)

/-- enterState of UpdaterStateMachine.ts. -/
def enterState (fuel : Nat) (s : FsmState) (newState : States) :
    FsmState × List Effect :=
  fsmStep fuel s (FsmReq.enter newState)

/-- onRepositoryList: a null or empty object list injects
UpdateCheckFailure; a non-empty list requests the batch download of all
listed files into the cache location and injects nothing yet. -/
def onRepositoryList (fuel : Nat) (s : FsmState)
    (objectList : Option (List JSStr)) : FsmState × List Effect :=
  match objectList with
  | none => injectEvent fuel s (AllEvents.controls Controls.updateCheckFailure)
  | some [] => injectEvent fuel s (AllEvents.controls Controls.updateCheckFailure)
  | some keys => (s, [Effect.downloadFiles keys ".".toList])

/-- onRepositoryDownload: the control event the orchestrator injects when
one file of the batch reports completion, as a function of the batch record
snapshot: nothing while the batch is incomplete, and on the transition
where completed equals count, UpdateCheckSuccess when any download
succeeded and UpdateCheckFailure otherwise. -/
def onRepositoryDownload (batch : UpdateRepository.DownloadBatch) :
    Option Controls :=
  if batch.completed = batch.count then
    some (if 0 < batch.success then Controls.updateCheckSuccess
          else Controls.updateCheckFailure)
  else none

/-- The control events injected over the life of a download batch whose
per-file outcomes arrive in the order given by results: the i-th callback
observes the shared batch record after i + 1 completions. -/
def batchEvents (results : List Bool) : List Controls :=
  (List.range results.length).filterMap fun i =>
    onRepositoryDownload
      (UpdateRepository.batchAfter results.length (results.take (i + 1)))

end UpdaterStateMachine

end NaimUpdate

namespace NaimUpdate

/-! ## Helper lemmas -/

/-- The split of a JavaScript string always has at least one fragment. -/
lemma jsSplit_ne_nil (sep : Char) (s : JSStr) : jsSplit sep s ≠ [] := by
  cases s with
  | nil => simp [jsSplit]
  | cons c rest =>
      simp only [jsSplit]
      split
      · simp
      · split <;> simp

/-- ARMMfg.onData when the accumulated data does not end in the sentinel
line: the chunk is trimmed and accumulated and nothing else happens. -/
lemma onData_no_sentinel (s : ARMMfg.State) (data : JSStr)
    (h : (jsSplit '\n' (s.responseData ++ jsTrim data)).getLast? ≠
      some "-".toList) :
    ARMMfg.onData s data =
      ({ s with responseData := s.responseData ++ jsTrim data }, []) := by
  unfold ARMMfg.onData
  by_cases hl : 0 < (jsSplit '\n' (s.responseData ++ jsTrim data)).length
  · rw [if_pos hl, if_neg h]
  · rw [if_neg hl]

/-- ARMMfg.onData when the accumulated data ends in the sentinel line: the
lines are delivered, the port is closed and both the handle and the callback
are cleared. -/
lemma onData_sentinel (s : ARMMfg.State) (data : JSStr)
    (h : (jsSplit '\n' (s.responseData ++ jsTrim data)).getLast? =
      some "-".toList) :
    ARMMfg.onData s data =
      ({ s with
          responseData := s.responseData ++ jsTrim data
          portOpen := false
          hasCallback := false },
        (if s.hasCallback then
            [ARMMfg.Effect.deliver (jsSplit '\n' (s.responseData ++ jsTrim data))]
          else []) ++
          (if s.portOpen then [ARMMfg.Effect.closePort] else [])) := by
  have hne : jsSplit '\n' (s.responseData ++ jsTrim data) ≠ [] :=
    jsSplit_ne_nil '\n' (s.responseData ++ jsTrim data)
  unfold ARMMfg.onData
  rw [if_pos (List.length_pos.mpr hne), if_pos h]

/-- Any effect emitted by runBuffered is a process spawn. -/
lemma runBuffered_effects_spawn (s : NPConfig.State) (args : List JSStr)
    (cb t : Nat) :
    ∀ e ∈ (NPConfig.runBuffered s args cb t).2.2,
      ∃ a m, e = NPConfig.Effect.spawn a m := by
  intro e he
  unfold NPConfig.runBuffered NPConfig.run at he
  split at he
  · simp at he
    exact ⟨args, t, he⟩
  · split at he <;> simp at he

/-- onClose delivers the completion first and possibly spawns the dequeued
head of the command queue afterwards; everything after the delivery is a
spawn effect. -/
lemma onClose_effects_split (s : NPConfig.State) (code : Option Int) :
    ∃ tail, (∀ e ∈ tail, ∃ a m, e = NPConfig.Effect.spawn a m) ∧
      (NPConfig.onClose s code).2 =
        (match s.streamingCallback with
         | some cb =>
             [NPConfig.Effect.deliverStreaming cb (some [])
               (some (NPConfig.closeResult code))]
         | none =>
             match s.bufferedCallback with
             | some cb =>
                 [NPConfig.Effect.deliverBuffered cb s.bufferedData
                   (NPConfig.closeResult code)]
             | none => []) ++ tail := by
  rcases hst : s.streamingCallback with _ | scb <;>
    rcases hbf : s.bufferedCallback with _ | bcb <;>
      rcases hq : s.commandQueue with _ | ⟨c, rest⟩ <;>
        simp [NPConfig.onClose, hst, hbf, hq] <;>
          exact runBuffered_effects_spawn _ _ _ _

/-- A completion with a non-empty command queue and no streaming callback
dequeues the head of the queue and starts it as the new active buffered
command with a cleared line buffer. -/
lemma onClose_dequeues (s : NPConfig.State) (c : NPConfig.QueuedCommand)
    (rest : List NPConfig.QueuedCommand)
    (hst : s.streamingCallback = none) (hq : s.commandQueue = c :: rest) :
    (NPConfig.onClose s none).1 =
      { bufferedCallback := some c.handler, streamingCallback := none,
        bufferedData := [], activeDevice := s.activeDevice,
        commandQueue := rest } := by
  obtain ⟨b, st, d, a, q⟩ := s
  simp only at hst hq
  subst hst; subst hq
  rcases b with _ | bcb <;>
    simp [NPConfig.onClose, NPConfig.runBuffered, NPConfig.run]

/-- Draining the queue visits the queued handlers in exactly arrival
order. -/
lemma drainOrder_runs_queue (q : List NPConfig.QueuedCommand) :
    ∀ s : NPConfig.State, s.streamingCallback = none → s.commandQueue = q →
      NPConfig.drainOrder q.length s =
        q.map NPConfig.QueuedCommand.handler := by
  induction q with
  | nil => intro s _ _; rfl
  | cons c rest ih =>
      intro s hst hq
      have h1 := onClose_dequeues s c rest hst hq
      simp only [List.length_cons, NPConfig.drainOrder, h1]
      rw [ih { bufferedCallback := some c.handler, streamingCallback := none,
               bufferedData := [], activeDevice := s.activeDevice,
               commandQueue := rest } rfl rfl]
      simp

/-- The counters of a download batch after a list of completions. -/
lemma foldl_downloadCompletion (l : List Bool) :
    ∀ b : UpdateRepository.DownloadBatch,
      l.foldl UpdateRepository.downloadCompletion b =
        { completed := b.completed + l.length, count := b.count,
          success := b.success + l.count true } := by
  induction l with
  | nil => intro b; simp
  | cons a l ih =>
      intro b
      rw [List.foldl_cons, ih]
      rcases a <;>
        simp [UpdateRepository.downloadCompletion,
          UpdateRepository.DownloadBatch.mk.injEq, List.count_cons] <;>
        omega

/-- Closed form of batchAfter. -/
lemma batchAfter_spec (n : Nat) (results : List Bool) :
    UpdateRepository.batchAfter n results =
      { completed := results.length, count := n,
        success := results.count true } := by
  simpa [UpdateRepository.batchAfter, UpdateRepository.newBatch] using
    foldl_downloadCompletion results (UpdateRepository.newBatch n)

/-- A filterMap over an index range where only the final index produces a
value yields exactly that value. -/
lemma filterMap_range_single {α : Type} (n : Nat) (f : Nat → Option α) (e : α)
    (hn : 0 < n) (hnone : ∀ i, i + 1 < n → f i = none)
    (hlast : f (n - 1) = some e) :
    (List.range n).filterMap f = [e] := by
  obtain ⟨m, rfl⟩ : ∃ m, n = m + 1 := ⟨n - 1, by omega⟩
  rw [List.range_succ, List.filterMap_append]
  have h1 : (List.range m).filterMap f = [] := by
    rw [List.filterMap_eq_nil_iff]
    intro a ha
    exact hnone a (by have := List.mem_range.mp ha; omega)
  simp only [Nat.add_sub_cancel] at hlast
  simp [h1, hlast]

end NaimUpdate

namespace NaimUpdate

/-! ## Claim theorems -/

/-- Claim C3: for every state S, calling enterState(S) while the current
state is already S is a no-op: the machine state is unchanged and no effect
is emitted, so no Exit or Enter event reaches any handler, no state change
notification is sent, and the onStateChange hook is not invoked. -/
theorem enterState_self_is_noop (fuel : Nat) (s : UpdaterStateMachine.FsmState)
    (target : UpdaterStateMachine.States)
    (h : s.currentState = some target) :
    UpdaterStateMachine.enterState fuel s target = (s, []) := by
  cases fuel with
  | zero => rfl
  | succ fuel =>
      simp [UpdaterStateMachine.enterState, UpdaterStateMachine.fsmStep, h]

/-- Witness for the claim C3 theorem at a concrete machine state. -/
theorem enterState_self_is_noop_witness :
    UpdaterStateMachine.enterState 5
        ⟨some UpdaterStateMachine.States.welcome, none⟩
        UpdaterStateMachine.States.welcome =
      (⟨some UpdaterStateMachine.States.welcome, none⟩, []) :=
  enterState_self_is_noop 5 ⟨some UpdaterStateMachine.States.welcome, none⟩
    UpdaterStateMachine.States.welcome rfl

/-- Claim C6: runStreaming while any command is in flight (a buffered or a
streaming callback is registered) returns accepted false and leaves the
state untouched: nothing is started (no spawn effect) and nothing is placed
on the command queue. -/
theorem runStreaming_rejected_when_busy (s : NPConfig.State)
    (args : List JSStr) (cb timeoutMs : Nat)
    (h : ¬(s.bufferedCallback = none ∧ s.streamingCallback = none)) :
    NPConfig.runStreaming s args cb timeoutMs = (s, false, []) := by
  simp [NPConfig.runStreaming, h]

/-- Witness for the claim C6 theorem: a streaming request while a buffered
command is active is rejected outright. -/
theorem runStreaming_rejected_when_busy_witness :
    NPConfig.runStreaming ⟨some 0, none, [], none, []⟩ ["-l".toList] 7 20000 =
      (⟨some 0, none, [], none, []⟩, false, []) :=
  runStreaming_rejected_when_busy ⟨some 0, none, [], none, []⟩
    ["-l".toList] 7 20000 (by decide)

/-- Claim C7: onClose coerces a null exit code to the failure status 1 and
delivers that status to whichever callback is registered (first effect);
every streaming delivery made by onClose carries a non-null status. -/
theorem onClose_null_code_reports_one (s : NPConfig.State) (code : Option Int)
    (cb : Nat) :
    (code = none → NPConfig.closeResult code = 1) ∧
      (s.streamingCallback = some cb →
        (NPConfig.onClose s code).2.head? =
          some (NPConfig.Effect.deliverStreaming cb (some [])
            (some (NPConfig.closeResult code)))) ∧
      (s.streamingCallback = none → s.bufferedCallback = some cb →
        (NPConfig.onClose s code).2.head? =
          some (NPConfig.Effect.deliverBuffered cb s.bufferedData
            (NPConfig.closeResult code))) ∧
      (∀ c d st, NPConfig.Effect.deliverStreaming c d st ∈
          (NPConfig.onClose s code).2 → st ≠ none) := by
  obtain ⟨tail, htail, heq⟩ := onClose_effects_split s code
  refine ⟨fun h => by simp [h, NPConfig.closeResult], ?_, ?_, ?_⟩
  · intro hst
    rw [heq, hst]
    rfl
  · intro hst hbf
    rw [heq, hst, hbf]
    rfl
  · intro c d st hmem
    rw [heq] at hmem
    rcases List.mem_append.mp hmem with hm | hm
    · rcases hst : s.streamingCallback with _ | scb
      · rcases hbf : s.bufferedCallback with _ | bcb
        · rw [hst, hbf] at hm
          simp at hm
        · rw [hst, hbf] at hm
          simp at hm
      · rw [hst] at hm
        simp at hm
        rcases hm with ⟨_, _, h3⟩
        subst h3
        simp
    · obtain ⟨a, m, habs⟩ := htail _ hm
      simp at habs

/-- Witness for the claim C7 theorem: when the process of an active
streaming command closes with a null exit code, the callback receives
status 1. -/
theorem onClose_null_code_reports_one_witness :
    (NPConfig.onClose ⟨none, some 3, [], none, []⟩ none).2.head? =
      some (NPConfig.Effect.deliverStreaming 3 (some []) (some 1)) :=
  (onClose_null_code_reports_one ⟨none, some 3, [], none, []⟩ none 3).2.1 rfl

/-- Claim C8: with the orchestrator in CheckingForUpdate, a repository
listing callback that delivers an empty array drives the workflow to
CheckFailedCached: the machine ends in that state, having emitted exactly
the state change notification and the observer hook for CheckFailedCached
(in particular CheckFailedOffline is never entered). -/
theorem checking_empty_list_goes_cached (s : UpdaterStateMachine.FsmState)
    (h : s.currentState = some UpdaterStateMachine.States.checkingForUpdate) :
    UpdaterStateMachine.onRepositoryList 10 s (some []) =
      ({ s with currentState :=
            some UpdaterStateMachine.States.checkFailedCached },
        [UpdaterStateMachine.Effect.sendStateChange
            UpdaterStateMachine.States.checkFailedCached,
         UpdaterStateMachine.Effect.stateChangeHook
            UpdaterStateMachine.States.checkFailedCached]) := by
  obtain ⟨cs, pd⟩ := s
  have h' : cs = some UpdaterStateMachine.States.checkingForUpdate := h
  subst h'
  rfl

/-- Witness for the claim C8 theorem at a concrete orchestrator state. -/
theorem checking_empty_list_goes_cached_witness :
    UpdaterStateMachine.onRepositoryList 10
        ⟨some UpdaterStateMachine.States.checkingForUpdate, none⟩ (some []) =
      (⟨some UpdaterStateMachine.States.checkFailedCached, none⟩,
        [UpdaterStateMachine.Effect.sendStateChange
            UpdaterStateMachine.States.checkFailedCached,
         UpdaterStateMachine.Effect.stateChangeHook
            UpdaterStateMachine.States.checkFailedCached]) :=
  checking_empty_list_goes_cached
    ⟨some UpdaterStateMachine.States.checkingForUpdate, none⟩ rfl

/-- Claim C9 evaluation: npconfigToProductDetails is not exception free.
A line whose trimmed content matches a lookup label but holds no separator
makes the original throw a TypeError (value is undefined, so value.trim()
faults), modelled as the none result; a well-formed line decodes into the
matching field and untouched labels leave their fields unset. -/
theorem npconfigToProductDetails_throws_on_label_without_separator :
    Product.npconfigToProductDetails ["Product Type".toList] = none ∧
      Product.npconfigToProductDetails ["Product Type: NSC222".toList] =
        some { modelName := some "NSC222".toList } := by decide

/-- Claim C10: setDefaultDevice assigns the active device only when none is
set; after a selectDevice or an earlier setDefaultDevice, a later
setDefaultDevice leaves the gateway state unchanged. -/
theorem setDefaultDevice_never_overrides (s : NPConfig.State)
    (d0 d1 : JSStr) :
    (s.activeDevice = none →
        (NPConfig.setDefaultDevice s d0).activeDevice = some d0) ∧
      (s.activeDevice ≠ none → NPConfig.setDefaultDevice s d0 = s) ∧
      NPConfig.setDefaultDevice (NPConfig.selectDevice s d1) d0 =
        NPConfig.selectDevice s d1 ∧
      NPConfig.setDefaultDevice (NPConfig.setDefaultDevice s d1) d0 =
        NPConfig.setDefaultDevice s d1 := by
  refine ⟨fun h => ?_, fun h => ?_, ?_, ?_⟩
  · simp [NPConfig.setDefaultDevice, h]
  · simp [NPConfig.setDefaultDevice, h]
  · simp [NPConfig.setDefaultDevice, NPConfig.selectDevice]
  · by_cases h : s.activeDevice = none <;> simp [NPConfig.setDefaultDevice, h]

/-- Witness for the claim C10 theorem: a default is taken when no device is
set, and does not override an explicit selection. -/
theorem setDefaultDevice_never_overrides_witness :
    (NPConfig.setDefaultDevice ⟨none, none, [], none, []⟩
        "ttyUSB0".toList).activeDevice = some "ttyUSB0".toList ∧
      NPConfig.setDefaultDevice
          (NPConfig.selectDevice ⟨none, none, [], none, []⟩ "ttyUSB1".toList)
          "ttyUSB0".toList =
        NPConfig.selectDevice ⟨none, none, [], none, []⟩ "ttyUSB1".toList :=
  ⟨(setDefaultDevice_never_overrides ⟨none, none, [], none, []⟩
      "ttyUSB0".toList "ttyUSB1".toList).1 rfl,
   (setDefaultDevice_never_overrides ⟨none, none, [], none, []⟩
      "ttyUSB0".toList "ttyUSB1".toList).2.2.1⟩

end NaimUpdate

namespace NaimUpdate

/-- Claim C1: for a batch of downloads whose completions arrive in any
order, the shared batch record's completed counter increases by exactly one
per completion and never exceeds count; completed equals count exactly on
the final completion; and across the whole batch the orchestrator injects
exactly one outcome event, on that final callback: UpdateCheckSuccess when
any download succeeded, UpdateCheckFailure otherwise. -/
theorem download_batch_signals_once (results : List Bool)
    (h : 0 < results.length) :
    (∀ i, i < results.length →
        (UpdateRepository.batchAfter results.length
            (results.take (i + 1))).completed =
          (UpdateRepository.batchAfter results.length
            (results.take i)).completed + 1 ∧
        (UpdateRepository.batchAfter results.length
            (results.take (i + 1))).completed ≤
          (UpdateRepository.batchAfter results.length
            (results.take (i + 1))).count) ∧
      (∀ i, i < results.length →
        ((UpdateRepository.batchAfter results.length
            (results.take (i + 1))).completed =
          (UpdateRepository.batchAfter results.length
            (results.take (i + 1))).count ↔ i + 1 = results.length)) ∧
      UpdaterStateMachine.batchEvents results =
        [if 0 < results.count true then
            UpdaterStateMachine.Controls.updateCheckSuccess
          else UpdaterStateMachine.Controls.updateCheckFailure] := by
  refine ⟨?_, ?_, ?_⟩
  · intro i hi
    simp only [batchAfter_spec, List.length_take]
    omega
  · intro i hi
    simp only [batchAfter_spec, List.length_take]
    omega
  · unfold UpdaterStateMachine.batchEvents
    refine filterMap_range_single results.length _ _ h ?_ ?_
    · intro i hlt
      have hne : ¬((results.take (i + 1)).length = results.length) := by
        rw [List.length_take]
        omega
      simp [UpdaterStateMachine.onRepositoryDownload, batchAfter_spec, hne]
      omega
    · have hn1 : results.length - 1 + 1 = results.length := by omega
      simp only [hn1, List.take_length, UpdaterStateMachine.onRepositoryDownload,
        batchAfter_spec]
      simp

/-- Witness for the claim C1 theorem: a batch of two downloads, first one
successful, signals exactly one UpdateCheckSuccess, on the second
callback. -/
theorem download_batch_signals_once_witness :
    UpdaterStateMachine.batchEvents [true, false] =
      [UpdaterStateMachine.Controls.updateCheckSuccess] := by
  have h := (download_batch_signals_once [true, false] (by decide)).2.2
  exact h

/-- Claim C2: while a command is in flight, a further runBuffered request
is accepted and appended to the tail of the queue while the queue holds
fewer than maxCommandQueueLength entries and rejected once it is full, and
the completions drain the queue head first, running the queued commands in
exactly arrival order. -/
theorem runBuffered_queueing_discipline (s : NPConfig.State)
    (args : List JSStr) (cb : Nat)
    (hbusy : ¬(s.bufferedCallback = none ∧ s.streamingCallback = none)) :
    (s.commandQueue.length < NPConfig.maxCommandQueueLength →
        NPConfig.runBuffered s args cb NPConfig.defaultCommandTimeoutMs =
          ({ s with commandQueue := s.commandQueue ++ [⟨args, cb⟩] },
            true, [])) ∧
      (NPConfig.maxCommandQueueLength ≤ s.commandQueue.length →
        NPConfig.runBuffered s args cb NPConfig.defaultCommandTimeoutMs =
          (s, false, [])) ∧
      (s.streamingCallback = none →
        NPConfig.drainOrder s.commandQueue.length s =
          s.commandQueue.map NPConfig.QueuedCommand.handler) := by
  refine ⟨fun h => ?_, fun h => ?_, fun h => ?_⟩
  · simp [NPConfig.runBuffered, hbusy, h]
  · simp [NPConfig.runBuffered, hbusy, Nat.not_lt.mpr h]
  · exact drainOrder_runs_queue s.commandQueue s h rfl

/-- Witness for the claim C2 theorem: with a buffered command active and
one command queued, a further request is enqueued at the tail, and the
queue drains in arrival order. -/
theorem runBuffered_queueing_discipline_witness :
    NPConfig.runBuffered ⟨some 0, none, [], none, [⟨["-x".toList], 1⟩]⟩
        ["-v".toList] 2 NPConfig.defaultCommandTimeoutMs =
      (⟨some 0, none, [], none, [⟨["-x".toList], 1⟩, ⟨["-v".toList], 2⟩]⟩,
        true, []) ∧
      NPConfig.drainOrder 1 ⟨some 0, none, [], none, [⟨["-x".toList], 1⟩]⟩ =
        [1] :=
  ⟨(runBuffered_queueing_discipline
      ⟨some 0, none, [], none, [⟨["-x".toList], 1⟩]⟩
      ["-v".toList] 2 (by decide)).1 (by decide),
   (runBuffered_queueing_discipline
      ⟨some 0, none, [], none, [⟨["-x".toList], 1⟩]⟩
      ["-v".toList] 2 (by decide)).2.2 rfl⟩

/-- Claim C4 counterexample: in buffered mode a response line that spans
two stdout chunks with no intervening newline is NOT delivered as a single
unsplit line: the chunks abc and def end up as the two entries def, abc in
the data delivered at completion (splice(-1, 0, ...) inserts the later
fragment before the earlier one), not as the single line abcdef. -/
theorem buffered_chunk_split_counterexample :
    (NPConfig.onClose
        (NPConfig.onStdout
          (NPConfig.onStdout ⟨some 0, none, [], none, []⟩ "abc".toList).1
          "def".toList).1
        (some 0)).2 =
      [NPConfig.Effect.deliverBuffered 0 ["def".toList, "abc".toList] 0] ∧
      ["def".toList, "abc".toList] ≠ [("abc".toList ++ "def".toList : JSStr)] ∧
      ["def".toList, "abc".toList] ≠ [("abcdef".toList : JSStr)] := by decide

/-- Claim C4 as amended: each stdout chunk is trimmed and split on newlines
and the fragments are inserted into the accumulating line list immediately
before its last element (at the front for lists of length at most one), so
a response line spanning two delivery chunks with no intervening newline
appears as two separate entries, the later fragment ordered before the
earlier one, in the data delivered at completion. -/
theorem buffered_fragments_inserted_before_last (s : NPConfig.State)
    (cb : Nat) (c1 c2 : JSStr)
    (hb : s.bufferedCallback = some cb) (hst : s.streamingCallback = none)
    (hd : s.bufferedData = []) (hq : s.commandQueue = [])
    (h1 : jsSplit '\n' (jsTrim c1) = [c1])
    (h2 : jsSplit '\n' (jsTrim c2) = [c2]) :
    (NPConfig.onStdout s c1).1.bufferedData = [c1] ∧
      (NPConfig.onStdout (NPConfig.onStdout s c1).1 c2).1.bufferedData =
        [c2, c1] ∧
      (NPConfig.onClose
          (NPConfig.onStdout (NPConfig.onStdout s c1).1 c2).1 (some 0)).2 =
        [NPConfig.Effect.deliverBuffered cb [c2, c1] 0] := by
  obtain ⟨b, st, d, a, q⟩ := s
  have hb' : b = some cb := hb
  have hst' : st = none := hst
  have hd' : d = [] := hd
  have hq' : q = [] := hq
  subst hb'; subst hst'; subst hd'; subst hq'
  refine ⟨?_, ?_, ?_⟩ <;>
    simp [NPConfig.onStdout, NPConfig.onClose, NPConfig.closeResult,
      spliceBeforeLast, h1, h2]

/-- Witness for the amended claim C4 theorem at concrete chunks. -/
theorem buffered_fragments_inserted_before_last_witness :
    (NPConfig.onClose
        (NPConfig.onStdout
          (NPConfig.onStdout ⟨some 5, none, [], none, []⟩ "AB".toList).1
          "CD".toList).1 (some 0)).2 =
      [NPConfig.Effect.deliverBuffered 5 ["CD".toList, "AB".toList] 0] :=
  (buffered_fragments_inserted_before_last ⟨some 5, none, [], none, []⟩ 5
    "AB".toList "CD".toList rfl rfl rfl rfl (by decide) (by decide)).2.2

/-- Claim C5 counterexample: the Debug Session Manager trims every chunk
before appending it to the accumulation buffer, so a response split into
two chunks at a point adjacent to whitespace inside a line is NOT
reassembled into the correct line: the response AB CD newline dash split
after the space is delivered as the line ABCD, while the same response
delivered whole yields the line AB CD. -/
theorem serial_midline_split_counterexample :
    (ARMMfg.processChunks ⟨some "dev".toList, true, true, []⟩
        ["AB ".toList, "CD\n-".toList]).2 =
      [ARMMfg.Effect.deliver ["ABCD".toList, "-".toList],
       ARMMfg.Effect.closePort] ∧
      (ARMMfg.processChunks ⟨some "dev".toList, true, true, []⟩
          ["AB CD\n-".toList]).2 =
        [ARMMfg.Effect.deliver ["AB CD".toList, "-".toList],
         ARMMfg.Effect.closePort] ∧
      ("ABCD".toList : JSStr) ≠ "AB CD".toList := by decide

/-- Claim C5 as amended: each chunk is trimmed before being appended to the
accumulation buffer, so a response delivered in two chunks whose split
point falls mid-line is reassembled into one correct line before the
sentinel check provided neither chunk carries whitespace at the split point
(both are trim invariant); when the last accumulated line equals the
sentinel, the whole accumulated line list is delivered, the port is closed
and cleared, and the session accepts a new runCommand again. -/
theorem serial_sentinel_completion (s : ARMMfg.State)
    (c1 c2 command d : JSStr)
    (hrd : s.responseData = []) (hcb : s.hasCallback = true)
    (hport : s.portOpen = true)
    (h1 : jsTrim c1 = c1) (h2 : jsTrim c2 = c2)
    (hmid : (jsSplit '\n' c1).getLast? ≠ some "-".toList)
    (hsent : (jsSplit '\n' (c1 ++ c2)).getLast? = some "-".toList) :
    ARMMfg.processChunks s [c1, c2] =
      ({ s with
          portOpen := false
          hasCallback := false
          responseData := c1 ++ c2 },
        [ARMMfg.Effect.deliver (jsSplit '\n' (c1 ++ c2)),
         ARMMfg.Effect.closePort]) ∧
      (ARMMfg.runCommand
          { (ARMMfg.processChunks s [c1, c2]).1 with device := some d }
          command).2.1 = true := by
  obtain ⟨dev, po, hc, rd⟩ := s
  have hrd' : rd = [] := hrd
  have hcb' : hc = true := hcb
  have hport' : po = true := hport
  subst hrd'; subst hcb'; subst hport'
  have he1 : ARMMfg.onData ⟨dev, true, true, []⟩ c1 =
      (⟨dev, true, true, c1⟩, []) := by
    have := onData_no_sentinel ⟨dev, true, true, []⟩ c1 (by simpa [h1] using hmid)
    simpa [h1] using this
  have he2 : ARMMfg.onData ⟨dev, true, true, c1⟩ c2 =
      (⟨dev, false, false, c1 ++ c2⟩,
        [ARMMfg.Effect.deliver (jsSplit '\n' (c1 ++ c2)),
         ARMMfg.Effect.closePort]) := by
    have := onData_sentinel ⟨dev, true, true, c1⟩ c2 (by simpa [h2] using hsent)
    simpa [h2] using this
  constructor
  · simp [ARMMfg.processChunks, he1, he2]
  · simp [ARMMfg.processChunks, he1, he2, ARMMfg.runCommand]

/-- Witness for the amended claim C5 theorem: a mid-line split with no
whitespace at the split point is reassembled correctly, delivered on the
sentinel, and the session accepts a new command again. -/
theorem serial_sentinel_completion_witness :
    ARMMfg.processChunks ⟨some "dev".toList, true, true, []⟩
        ["AB".toList, "CD\n-".toList] =
      (⟨some "dev".toList, false, false, "ABCD\n-".toList⟩,
        [ARMMfg.Effect.deliver ["ABCD".toList, "-".toList],
         ARMMfg.Effect.closePort]) ∧
      (ARMMfg.runCommand
          { (ARMMfg.processChunks ⟨some "dev".toList, true, true, []⟩
              ["AB".toList, "CD\n-".toList]).1 with
            device := some "dev".toList }
          "version host".toList).2.1 = true :=
  serial_sentinel_completion ⟨some "dev".toList, true, true, []⟩
    "AB".toList "CD\n-".toList "version host".toList "dev".toList
    rfl rfl rfl (by decide) (by decide) (by decide) (by decide)

end NaimUpdate
